import Mathlib

/-!
Verification of the image-placeholder resolution pipeline of the
ai_designer_v2 repository.

The development shallowly embeds:
  * the server helpers of `src/server.js` (`detectImageMimeFromBuffer`,
    `generateImage`, `removeBackgroundFun`, the `/api/generate-layout`
    and `/api/remove-bg` endpoint bodies), with Node's lenient base64
    codec made explicit and the external collaborators (the Together AI
    image API, the `@imgly` segmentation library, `fetch`) passed in as
    oracle functions; and
  * the client resolution loop of `src/public/script.js`
    (the `generateBtn` click handler), as a pure function from a layout
    oracle and a per-image generation oracle to the final per-placeholder
    results, the emitted progress events and the user-facing alerts.

Bytes are modelled as `Nat` lists (each entry a value 0..255), encoded
images as their base64 `String` payloads, and every fallible external
call as an `Except` valued oracle.
-/

namespace AiDesigner

/-! ### Node's base64 codec

`Buffer.from(s, 'base64')` ignores characters outside the base64
alphabet and drops a trailing group of a single sextet;
`buf.toString('base64')` is the standard padded encoder. -/

/-- Value of one base64 alphabet character, `none` for characters Node's
lenient decoder skips. -/
def b64Val (c : Char) : Option Nat :=
  if 'A' ≤ c ∧ c ≤ 'Z' then some (c.toNat - 65)
  else if 'a' ≤ c ∧ c ≤ 'z' then some (c.toNat - 97 + 26)
  else if '0' ≤ c ∧ c ≤ '9' then some (c.toNat - 48 + 52)
  else if c = '+' then some 62
  else if c = '/' then some 63
  else none

/-- Pack a list of 6-bit values into bytes, 4 sextets to 3 bytes, with
Node's handling of trailing partial groups. -/
def sextetsToBytes : List Nat → List Nat
  | a :: b :: c :: d :: rest =>
      (a * 4 + b / 16) :: ((b % 16) * 16 + c / 4) :: ((c % 4) * 64 + d) ::
        sextetsToBytes rest
  | [a, b] => [a * 4 + b / 16]
  | [a, b, c] => [a * 4 + b / 16, (b % 16) * 16 + c / 4]
  | _ => []

/-- `Buffer.from(s, 'base64')`: decode a string to bytes, skipping
non-alphabet characters. -/
def decode64 (s : String) : List Nat :=
  sextetsToBytes (s.data.filterMap b64Val)

/-- The base64 alphabet in index order. -/
def b64Chars : List Char :=
  "ABCDEFGHIJKLMNOPQRSTUVWXYZabcdefghijklmnopqrstuvwxyz0123456789+/".data

/-- Character for a 6-bit value. -/
def b64Char (n : Nat) : Char := b64Chars.getD n '='

/-- Encode bytes as base64 characters with `=` padding. -/
def bytesToB64Chars : List Nat → List Char
  | x :: y :: z :: rest =>
      b64Char (x / 4) :: b64Char ((x % 4) * 16 + y / 16) ::
        b64Char ((y % 16) * 4 + z / 64) :: b64Char (z % 64) ::
        bytesToB64Chars rest
  | [x] => [b64Char (x / 4), b64Char ((x % 4) * 16), '=', '=']
  | [x, y] => [b64Char (x / 4), b64Char ((x % 4) * 16 + y / 16),
      b64Char ((y % 16) * 4), '=']
  | [] => []

/-- `buf.toString('base64')`. -/
def encode64 (bytes : List Nat) : String :=
  List.asString (bytesToB64Chars bytes)

/-! ### `detectImageMimeFromBuffer` (src/server.js lines 16–22) -/

/-- JavaScript `buffer[i]`: out-of-range access yields `undefined`, which
compares unequal to every byte value; the sentinel 256 is outside the
byte range so the magic-number comparisons below fail exactly as in JS. -/
def byteAt (buffer : List Nat) (i : Nat) : Nat := buffer.getD i 256

/-- Sniff an image MIME type from a buffer's leading bytes
(src/server.js `detectImageMimeFromBuffer`). -/
def detectImageMimeFromBuffer (buffer : List Nat) : String :=
  if buffer.length = 0 then "image/png"
  else if byteAt buffer 0 = 0x89 ∧ byteAt buffer 1 = 0x50 ∧
      byteAt buffer 2 = 0x4E ∧ byteAt buffer 3 = 0x47 then "image/png"
  else if byteAt buffer 0 = 0xFF ∧ byteAt buffer 1 = 0xD8 ∧
      byteAt buffer 2 = 0xFF then "image/jpeg"
  else if byteAt buffer 0 = 0x52 ∧ byteAt buffer 1 = 0x49 ∧
      byteAt buffer 2 = 0x46 ∧ byteAt buffer 3 = 0x46 ∧
      byteAt buffer 8 = 0x57 ∧ byteAt buffer 9 = 0x45 ∧
      byteAt buffer 10 = 0x42 then "image/webp"
  else "application/octet-stream"

/-! ### `generateImage` and `removeBackgroundFun` (src/server.js 61–157) -/

/-- Oracle for the `@imgly/background-removal-node` `removeBackground`
call: takes the input bytes and the blob MIME type, returns the output
bytes or fails. -/
def SegOracle : Type := List Nat → String → Except String (List Nat)

/-- Oracle for the Together AI images endpoint: takes the JSON request
body and returns the `b64_json` payload, or fails (covering both
non-`ok` HTTP responses and a response without `data[0].b64_json`). -/
def ImageApiOracle : Type → Type := fun ρ => ρ → Except String String

/-- JSON body sent to `https://api.together.xyz/v1/images/generations`
(src/server.js lines 92–100). -/
structure TogetherRequest where
  model : String
  prompt : String
  width : Nat
  height : Nat
  n : Nat
  output_format : String
  response_format : String
deriving DecidableEq

/-- `width = width < 64 ? 64 : width` (src/server.js lines 62–63). -/
def clampMin64 (n : Nat) : Nat := if n < 64 then 64 else n

/-- `(num) => Math.round((num || 1024) / 16) * 16` (src/server.js line
79): for natural `num`, `Math.round(num / 16)` is `⌊(2*num + 16) / 32⌋`
(ties round up). -/
def roundToMultiple16 (num : Nat) : Nat :=
  ((2 * (if num = 0 then 1024 else num) + 16) / 32) * 16

/-- Request body built by `generateImage` from already-clamped
dimensions (src/server.js lines 79–100). -/
def togetherRequest (prompt : String) (width height : Nat) : TogetherRequest :=
  { model := "black-forest-labs/FLUX.1-schnell-Free"
    prompt := prompt
    width := roundToMultiple16 width
    height := roundToMultiple16 height
    n := 1
    output_format := "png"
    response_format := "base64" }

/-- `removeBackgroundFun` (src/server.js lines 120–157): decode the
base64 payload, sniff its MIME type for the blob, run the segmentation
library, and re-wrap the output as a PNG data URL; on any failure fall
back to returning the original payload as a PNG data URL. -/
def removeBackgroundFun (seg : SegOracle) (imageBase64 : String) : String :=
  let inputBuffer := decode64 imageBase64
  let mimeType := detectImageMimeFromBuffer inputBuffer
  match seg inputBuffer mimeType with
  | Except.ok result => "data:image/png;base64," ++ encode64 result
  | Except.error _ => "data:image/png;base64," ++ imageBase64

/-- `generateImage` (src/server.js lines 61–117): clamp the dimensions,
build the Together AI request, and on success either run background
removal (transparent) or wrap the payload as a JPEG-labelled data URL.
The first component is the request body handed to the API oracle; the
second is the returned data URL or the thrown error. -/
def generateImage (seg : SegOracle) (api : ImageApiOracle TogetherRequest)
    (apiKey : String) (prompt : String) (width height : Nat)
    (isTransparent : Bool) : TogetherRequest × Except String String :=
  let width := clampMin64 width
  let height := clampMin64 height
  let req := togetherRequest prompt width height
  (req,
    if apiKey.isEmpty then Except.error "TOGETHER_API_KEY is not set."
    else
      match api req with
      | Except.error e => Except.error ("Together AI Error: " ++ e)
      | Except.ok b64 =>
          if isTransparent then Except.ok (removeBackgroundFun seg b64)
          else Except.ok ("data:image/jpeg;base64," ++ b64))

/-! ### `POST /api/remove-bg` (src/server.js lines 247–339) -/

/-- Oracle for `fetch(imageUrl)` on a remote image: returns the response
bytes and the `content-type` header, or fails (covering both a rejected
fetch and a non-`ok` response, which the handler turns into the same
400 reply). -/
def FetchOracle : Type := String → Except String (List Nat × Option String)

/-- JavaScript `String.prototype.startsWith`, computed on the character
list so that it evaluates structurally. -/
def jsStartsWith (s pre : String) : Bool := List.isPrefixOf pre.data s.data

/-- JavaScript `String.prototype.split(',')` on a character list: the
maximal comma-free segments, in order. -/
def splitOnComma : List Char → List (List Char)
  | [] => [[]]
  | x :: xs =>
      match splitOnComma xs with
      | [] => [[]]
      | g :: gs => if x = ',' then [] :: g :: gs else (x :: g) :: gs

/-- Characters admitted by the subtype class of the handler's data-URL
regular expression `[a-zA-Z0-9.+-]`. -/
def isSubtypeChar (c : Char) : Bool :=
  c.isAlpha || c.isDigit || c = '.' || c = '+' || c = '-'

/-- Match `^data:(image\/[a-zA-Z0-9.+-]+);base64,(.*)$` (src/server.js
line 256), returning the MIME type and the base64 payload. The subtype
class excludes `;`, so the greedy match ends exactly at `;base64,`. -/
def parseDataUrl (s : String) : Option (String × String) :=
  if jsStartsWith s "data:image/" then
    let rest := s.data.drop 11
    let sub := rest.takeWhile isSubtypeChar
    if sub.isEmpty then none
    else
      let after := rest.drop sub.length
      if List.isPrefixOf (";base64,".data) after then
        some ("image/" ++ List.asString sub, List.asString (after.drop 8))
      else none
  else none

/-- First phase of the `/api/remove-bg` handler (src/server.js lines
253–285): derive `base64Data` and `mimeType` from the request's
`imageUrl` according to its shape (data URL, remote http(s) URL, or raw
base64), with the handler's early 400 replies as errors. -/
def removeBgPhase1 (fetchImage : FetchOracle) (imageUrl : String) :
    Except String (String × String) :=
  if jsStartsWith imageUrl "data:" then
    match parseDataUrl imageUrl with
    | none => Except.error "Invalid data URL format"
    | some (m, b) => Except.ok (b, m)
  else if jsStartsWith imageUrl "http://" || jsStartsWith imageUrl "https://" then
    match fetchImage imageUrl with
    | Except.error _ => Except.error "Invalid imageUrl or unable to fetch it"
    | Except.ok (bytes, contentType) =>
        let mime := match contentType with
          | some c => if jsStartsWith c "image/" then c else "image/png"
          | none => "image/png"
        Except.ok (encode64 bytes, mime)
  else Except.ok (imageUrl, "image/png")

/-- The input actually handed to the segmentation library by
`/api/remove-bg` (src/server.js lines 253–309): after phase 1, the block
commented "Some dev code accidentally overwrote base64Data" reassigns
`base64Data` from the raw `imageUrl` (src/server.js lines 286–291),
discarding the bytes fetched for http(s) URLs; the result is decoded and
its MIME type sniffed from the decoded buffer when conclusive. -/
def removeBgInput (fetchImage : FetchOracle) (imageUrl : String) :
    Except String (List Nat × String) :=
  match removeBgPhase1 fetchImage imageUrl with
  | Except.error e => Except.error e
  | Except.ok (_, mimeType0) =>
      let base64Data :=
        if jsStartsWith imageUrl "data:image" then
          match splitOnComma imageUrl.data with
          | _ :: b :: _ => List.asString b
          | _ => ""
        else imageUrl
      if base64Data.isEmpty then Except.error "Invalid or missing imageUrl"
      else
        let inputBuffer := decode64 base64Data
        let detectedMime := detectImageMimeFromBuffer inputBuffer
        let mimeType :=
          if detectedMime ≠ "application/octet-stream" then detectedMime
          else mimeType0
        Except.ok (inputBuffer, mimeType)

/-- HTTP replies of the `/api/remove-bg` handler. -/
inductive BgResponse where
  | badRequest (msg : String)
  | serverError (msg : String)
  | okUrl (url : String)
deriving DecidableEq

/-- Full `/api/remove-bg` handler (src/server.js lines 247–339): run the
segmentation library on the derived input, replying with a PNG data URL
of its output, falling back to the (decoded) input when the output is
empty, and with a 500 reply when the library throws. -/
def removeBgEndpoint (fetchImage : FetchOracle) (seg : SegOracle)
    (imageUrl : String) : BgResponse :=
  match removeBgInput fetchImage imageUrl with
  | Except.error e => BgResponse.badRequest e
  | Except.ok (inputBuffer, mimeType) =>
      match seg inputBuffer mimeType with
      | Except.error e => BgResponse.serverError e
      | Except.ok output =>
          if output.isEmpty then
            BgResponse.okUrl ("data:image/png;base64," ++ encode64 inputBuffer)
          else
            BgResponse.okUrl ("data:image/png;base64," ++ encode64 output)

/-! ### `POST /api/generate-layout` (src/server.js lines 160–230) -/

/-- The system prompt of the layout endpoint (src/server.js lines
188–217). -/
def layoutSystemPrompt : String :=
  "Act as an expert Frontend Developer and HTML/CSS Renderer. Your task is to accept a **JSON Design Specification** and convert it into a pixel-perfect, single-file HTML flyer.\n\n**INPUT DATA:**\nYou will receive a JSON object containing:\n- `theme_concept`: The overall vibe.\n- `colors`: Specific HEX codes for backgrounds, accents, and text.\n- `typography`: Specific Google Font names and styles.\n- `visual_elements`: A list of descriptions for stickers/graphics.\n- `content`: The actual text to display.\n\n**EXECUTION RULES:**\n1.  **Strict Adherence:** You must use the **exact** HEX codes and Font Family names provided in the JSON. Do not invent new colors or fonts.\n2.  **Layout Strategy:** Align and pad text/visuals for a clean, professional layout based on the `theme_concept`. Scale text so it fits without clipping.\n3.  **Structure:** The output must only contain `<div>`, `<span>`, and `<img>` elements. No JavaScript.\n4.  **Background:** Use the `colors.background` from the JSON. You may use CSS gradients or `clip-path` shapes using the `colors.accent` to add depth.\n5.  **Visual Elements (Stickers):**\n    * Iterate through the `visual_elements` array in the JSON.\n    * For each item, create an `<img>` tag.\n    * Set `src=\"\"`.\n    * Set `x-prompt=\"[Description from JSON]\"`.\n    * Set `transparent=\"true\"`.\n    * Position these creatively (using z-index and absolute positioning) to enhance the design without blocking text.\n6.  **Typography & Spans:**\n    * Every text node must be wrapped in a `<span>` tag.\n    * The `<span>` must have a `data-font-url` attribute containing the Google Font link for that specific font family and weight.\n    * The `<span>` tag itself must NOT have styling properties; apply styles to the parent or a wrapper.\n7.  **Z-Index:** Every `<div>`, `<img>`, and `<span>` must have a defined `z-index` (not auto).\n\n**OUTPUT:**\nOutput ONLY the raw HTML string inside a main container `<div>`. Do not include markdown code blocks or explanations."

/-- The literal assigned to `requirements` inside the handler
(src/server.js line 219), overriding whatever the request carried; the
destructuring `const { requirements } = req.body` on line 162 is
commented out. -/
def hardcodedRequirements : String :=
  "\x7b\n\"theme_concept\": \"Timeless Elegance Revival\",\n\"colors\": \x7b\n\"background\": \"#1A1A1A\",\n\"primary_text\": \"#F5F5DC\",\n\"accent\": \"#B8860B\",\n\"container_bg\": \"rgba(242, 242, 242, 0.85)\"\n\x7d,\n\"typography\": \x7b\n\"headline_font\": \"Playfair Display\",\n\"headline_style\": \"uppercase 700\",\n\"body_font\": \"Source Sans Pro\"\n\x7d,\n\"visual_elements\": [\n\"Elegant metallic foil stamp (e.g., embossed laurel wreath or monogram)\",\n\"Whispers of abstract gilded brushstrokes\",\n\"Subtle, textured background overlay reminiscent of fine silk or linen\",\n\"Geometric accent shape with a soft, iridescent gradient (e.g., a rounded hexagon)\"\n],\n\"css_suggestions\": \"Apply subtle text-shadow to headlines for refined depth: text-shadow: 0 1px 3px rgba(0,0,0,0.2); Use box-shadow on card elements for a delicate lift: box-shadow: 0 4px 15px rgba(0,0,0,0.1); Incorporate elegant border-radius on containers for a softer feel: border-radius: 8px; Consider subtle linear gradients for backgrounds or accent elements, e.g., background: linear-gradient(135deg, #B8860B, #DAA520);\"\n\x7d"

/-- Prompt the `/api/generate-layout` handler sends to the language
model, as a function of the `requirements` field of the request body
(src/server.js lines 160–223). The handler never reads
`requirementsBody`: `requirements` is reassigned to the hardcoded
literal before the prompt is built. -/
def generateLayoutFullPrompt (requirementsBody : String) : String :=
  layoutSystemPrompt ++ "\n\nUser Requirements: " ++ hardcodedRequirements

/-! ### Client resolution loop (src/public/script.js lines 8–99) -/

/-- One `img[x-prompt]` node of the generated layout: its `x-prompt` and
`transparent` attributes and its DOM size fields; an absent or zero
`width` / `clientWidth` is the JavaScript falsy value 0. -/
structure Placeholder where
  xPrompt : String
  transparentAttr : String
  width : Nat
  clientWidth : Nat
  height : Nat
  clientHeight : Nat
deriving DecidableEq

/-- `img.width || img.clientWidth || 300` (src/public/script.js line 43). -/
def resolvedWidth (img : Placeholder) : Nat :=
  if img.width ≠ 0 then img.width
  else if img.clientWidth ≠ 0 then img.clientWidth
  else 300

/-- `img.height || img.clientHeight || 300` (src/public/script.js line 44). -/
def resolvedHeight (img : Placeholder) : Nat :=
  if img.height ≠ 0 then img.height
  else if img.clientHeight ≠ 0 then img.clientHeight
  else 300

/-- Lifecycle of a placeholder (spec §3). -/
inductive ResolutionState where
  | Pending
  | Resolved
  | Failed
deriving DecidableEq

/-- Terminal condition of one placeholder after the loop body ran for
it: on success `img.src` is set to the returned URL, on failure
`img.alt` is set to the failure marker (src/public/script.js lines
82–87). -/
structure ItemResult where
  state : ResolutionState
  src : Option String
  alt : Option String
deriving DecidableEq

/-- Observable progress of the loop: the per-image "Generating image
i+1 of N" message emitted before each generation call, and the per-image
terminal outcome. Indices are 0-based. -/
inductive Event where
  | imageStart (index total : Nat)
  | imageResolved (index : Nat)
  | imageFailed (index : Nat)
deriving DecidableEq

/-- Oracle for one `POST /api/generate-image` round trip: the prompt,
resolved width and height, and transparency flag are sent; the reply is
the image data URL, or an error (covering a rejected fetch and a
non-`ok` response, both of which throw into the per-image catch). -/
def GenOracle : Type := String → Nat → Nat → Bool → Except String String

/-- Body of the `for` loop over `posterContainer.querySelectorAll('img[x-prompt]')`
(src/public/script.js lines 39–89), carrying the 0-based index of the
current image: emit the start message, call the generation oracle with
the extracted attributes, record the outcome on the image, and continue
with the rest regardless of failure. -/
def processImagesAux (gen : GenOracle) (total : Nat) :
    Nat → List Placeholder → List ItemResult × List Event
  | _, [] => ([], [])
  | i, img :: rest =>
      match gen img.xPrompt (resolvedWidth img) (resolvedHeight img)
          (img.transparentAttr == "true") with
      | Except.ok url =>
          ({ state := ResolutionState.Resolved, src := some url, alt := none } ::
             (processImagesAux gen total (i + 1) rest).1,
           Event.imageStart i total :: Event.imageResolved i ::
             (processImagesAux gen total (i + 1) rest).2)
      | Except.error _ =>
          ({ state := ResolutionState.Failed, src := none,
             alt := some "Image generation failed" } ::
             (processImagesAux gen total (i + 1) rest).1,
           Event.imageStart i total :: Event.imageFailed i ::
             (processImagesAux gen total (i + 1) rest).2)

/-- The whole image loop of the click handler, from the first image. -/
def processImages (gen : GenOracle) (images : List Placeholder) :
    List ItemResult × List Event :=
  processImagesAux gen images.length 0 images

/-- Outcome of one placeholder as a function of the oracle reply; the
loop produces exactly this item for each image (see
`processImagesAux_items`). -/
def itemFor (gen : GenOracle) (img : Placeholder) : ItemResult :=
  match gen img.xPrompt (resolvedWidth img) (resolvedHeight img)
      (img.transparentAttr == "true") with
  | Except.ok url =>
      { state := ResolutionState.Resolved, src := some url, alt := none }
  | Except.error _ =>
      { state := ResolutionState.Failed, src := none,
        alt := some "Image generation failed" }

/-- Events contributed by one placeholder at a given index: its start
message followed immediately by its terminal event. -/
def itemBlock (gen : GenOracle) (total : Nat) : Nat × Placeholder → List Event
  | (i, img) =>
      match gen img.xPrompt (resolvedWidth img) (resolvedHeight img)
          (img.transparentAttr == "true") with
      | Except.ok _ => [Event.imageStart i total, Event.imageResolved i]
      | Except.error _ => [Event.imageStart i total, Event.imageFailed i]

/-- Recognizer for per-image start progress events. -/
def isStartEvent : Event → Bool
  | Event.imageStart _ _ => true
  | _ => false

/-- Number of placeholders that ended `Resolved`. -/
def completedCount (items : List ItemResult) : Nat :=
  items.countP fun it => it.state == ResolutionState.Resolved

/-- Number of placeholders that ended `Failed`. -/
def failedCount (items : List ItemResult) : Nat :=
  items.countP fun it => it.state == ResolutionState.Failed

/-- The generation oracle realized by the server: one
`POST /api/generate-image` round trip runs `generateImage`
(src/server.js lines 233–244), replying 200 with the URL on success and
500 on a thrown error. -/
def clientImageCall (seg : SegOracle) (api : ImageApiOracle TogetherRequest)
    (apiKey : String) : GenOracle :=
  fun prompt width height isTransparent =>
    (generateImage seg api apiKey prompt width height isTransparent).2

/-- Oracle for one `POST /api/generate-layout` round trip: the trimmed
requirements are sent; the reply is the list of placeholders the
returned markup scans to, or an error (rejected fetch or non-`ok`
response, both of which throw `Failed to generate layout`). -/
def LayoutOracle : Type := String → Except String (List Placeholder)

/-- Externally visible outcome of one click of the generate button. -/
structure RunOutcome where
  alerts : List String
  layoutCalls : Nat
  imageCalls : Nat
  items : List ItemResult
  events : List Event
deriving DecidableEq

/-- The `generateBtn` click handler (src/public/script.js lines 8–99):
trim the input and bail out with the validation alert when empty;
otherwise call the layout endpoint, and on its failure surface the
single outer-catch alert without touching any image; on success run the
sequential image loop. -/
def runGeneration (layoutApi : LayoutOracle) (gen : GenOracle)
    (userInputValue : String) : RunOutcome :=
  let requirements := userInputValue.trim
  if requirements.isEmpty then
    { alerts := ["Please enter your requirements first."]
      layoutCalls := 0, imageCalls := 0, items := [], events := [] }
  else
    match layoutApi requirements with
    | Except.error _ =>
        { alerts := ["An error occurred while generating the flyer. Please try again."]
          layoutCalls := 1, imageCalls := 0, items := [], events := [] }
    | Except.ok images =>
        { alerts := []
          layoutCalls := 1
          imageCalls := images.length
          items := (processImages gen images).1
          events := (processImages gen images).2 }

/-! ### Structural lemmas about the resolution loop -/

/-- The loop produces one `itemFor` outcome per placeholder, in order. -/
theorem processImagesAux_items (gen : GenOracle) (total : Nat) :
    ∀ (phs : List Placeholder) (i : Nat),
      (processImagesAux gen total i phs).1 = phs.map (itemFor gen) := by
  intro phs
  induction phs with
  | nil => intro i; rfl
  | cons img rest ih =>
      intro i
      cases hg : gen img.xPrompt (resolvedWidth img) (resolvedHeight img)
          (img.transparentAttr == "true") with
      | ok url => simp [processImagesAux, itemFor, hg, ih]
      | error e => simp [processImagesAux, itemFor, hg, ih]

/-- The emitted trace is the concatenation, in document order, of the
per-placeholder event blocks. -/
theorem processImagesAux_trace (gen : GenOracle) (total : Nat) :
    ∀ (phs : List Placeholder) (i : Nat),
      (processImagesAux gen total i phs).2 =
        (List.enumFrom i phs).flatMap (itemBlock gen total) := by
  intro phs
  induction phs with
  | nil => intro i; rfl
  | cons img rest ih =>
      intro i
      cases hg : gen img.xPrompt (resolvedWidth img) (resolvedHeight img)
          (img.transparentAttr == "true") with
      | ok url => simp [processImagesAux, itemBlock, hg, ih, List.enumFrom]
      | error e => simp [processImagesAux, itemBlock, hg, ih, List.enumFrom]

/-- The trace holds exactly one start event per placeholder. -/
theorem processImagesAux_start_count (gen : GenOracle) (total : Nat) :
    ∀ (phs : List Placeholder) (i : Nat),
      ((processImagesAux gen total i phs).2.countP isStartEvent) = phs.length := by
  intro phs
  induction phs with
  | nil => intro i; rfl
  | cons img rest ih =>
      intro i
      cases hg : gen img.xPrompt (resolvedWidth img) (resolvedHeight img)
          (img.transparentAttr == "true") with
      | ok url => simp [processImagesAux, hg, List.countP_cons, isStartEvent, ih]
      | error e => simp [processImagesAux, hg, List.countP_cons, isStartEvent, ih]

/-- Every placeholder's outcome is `Resolved` or `Failed`. -/
theorem itemFor_state (gen : GenOracle) (img : Placeholder) :
    (itemFor gen img).state = ResolutionState.Resolved ∨
      (itemFor gen img).state = ResolutionState.Failed := by
  cases hg : gen img.xPrompt (resolvedWidth img) (resolvedHeight img)
      (img.transparentAttr == "true") with
  | ok url => left; simp [itemFor, hg]
  | error e => right; simp [itemFor, hg]

/-- The resolved and failed counts of the loop's outcomes add up to the
number of placeholders. -/
theorem counts_map (gen : GenOracle) :
    ∀ (phs : List Placeholder),
      completedCount (phs.map (itemFor gen)) +
        failedCount (phs.map (itemFor gen)) = phs.length := by
  intro phs
  induction phs with
  | nil => rfl
  | cons img rest ih =>
      rcases itemFor_state gen img with hs | hs <;>
        simp [completedCount, failedCount, List.countP_cons, hs] at * <;>
        omega

/-- Each placeholder's start event is in the trace. -/
theorem processImagesAux_start_mem (gen : GenOracle) (total : Nat) :
    ∀ (phs : List Placeholder) (i j : Nat), j < phs.length →
      Event.imageStart (i + j) total ∈ (processImagesAux gen total i phs).2 := by
  intro phs
  induction phs with
  | nil => intro i j h; simp at h
  | cons img rest ih =>
      intro i j h
      cases hg : gen img.xPrompt (resolvedWidth img) (resolvedHeight img)
          (img.transparentAttr == "true") with
      | ok url =>
          cases j with
          | zero => simp [processImagesAux, hg]
          | succ j' =>
              have hlt : j' < rest.length := by simp at h; omega
              have hmem := ih (i + 1) j' hlt
              have heq : i + (j' + 1) = (i + 1) + j' := by omega
              rw [heq]
              simp only [processImagesAux, hg]
              exact List.mem_cons_of_mem _ (List.mem_cons_of_mem _ hmem)
      | error e =>
          cases j with
          | zero => simp [processImagesAux, hg]
          | succ j' =>
              have hlt : j' < rest.length := by simp at h; omega
              have hmem := ih (i + 1) j' hlt
              have heq : i + (j' + 1) = (i + 1) + j' := by omega
              rw [heq]
              simp only [processImagesAux, hg]
              exact List.mem_cons_of_mem _ (List.mem_cons_of_mem _ hmem)

/-- Lower bound, multiple-of-16 and distance facts about the rounding
applied to an already-clamped dimension. -/
theorem roundToMultiple16_spec (v : Nat) (hv : 64 ≤ v) :
    roundToMultiple16 v % 16 = 0 ∧ 64 ≤ roundToMultiple16 v ∧
      roundToMultiple16 v ≤ v + 8 ∧ v ≤ roundToMultiple16 v + 8 := by
  have h0 : ¬ v = 0 := by omega
  unfold roundToMultiple16
  rw [if_neg h0]
  have hd := Nat.div_add_mod (2 * v + 16) 32
  have hm : (2 * v + 16) % 32 < 32 := Nat.mod_lt _ (by norm_num)
  omega

/-- The clamp never yields a value below 64. -/
theorem clampMin64_ge (n : Nat) : 64 ≤ clampMin64 n := by
  unfold clampMin64
  split <;> omega

/-! ### Sample collaborators used by the witnesses -/

/-- A non-transparent placeholder with explicit dimensions. -/
def sampleOpaque : Placeholder :=
  { xPrompt := "golden sun sticker", transparentAttr := "false"
    width := 120, clientWidth := 0, height := 80, clientHeight := 0 }

/-- A transparent placeholder with no measured dimensions. -/
def sampleTransparent : Placeholder :=
  { xPrompt := "moon sticker", transparentAttr := "true"
    width := 0, clientWidth := 0, height := 0, clientHeight := 0 }

/-- A generation oracle that fails exactly on the moon-sticker prompt. -/
def sampleGen : GenOracle := fun prompt _ _ _ =>
  if prompt = "moon sticker" then Except.error "Failed to generate image"
  else Except.ok "data:image/jpeg;base64,QUJD"

/-- A segmentation oracle that always fails. -/
def sampleSeg : SegOracle := fun _ _ => Except.error "segmentation unavailable"

/-- An image API oracle that always succeeds with a fixed payload. -/
def sampleApi : ImageApiOracle TogetherRequest := fun _ => Except.ok "QUJD"

/-- A layout oracle that always fails. -/
def sampleLayoutFail : LayoutOracle := fun _ =>
  Except.error "Failed to generate layout"

/-! ### Claims -/

/-- C3: for every document with N placeholders, the resolution loop
emits exactly N per-item start progress events, and at termination the
aggregate counters satisfy completed + failed = N. -/
theorem progress_events_and_counters (gen : GenOracle) (phs : List Placeholder) :
    ((processImages gen phs).2.countP isStartEvent) = phs.length ∧
    completedCount (processImages gen phs).1 +
      failedCount (processImages gen phs).1 = phs.length := by
  refine ⟨processImagesAux_start_count gen phs.length phs 0, ?_⟩
  rw [processImages, processImagesAux_items]
  exact counts_map gen phs

/-- C9: within one run the trace is exactly the concatenation, in
document order, of per-placeholder blocks, and each block is the
placeholder's start event followed immediately by its terminal event —
so each placeholder's resolution completes (success or failure) before
the next placeholder's begins. -/
theorem sequential_document_order (gen : GenOracle) (phs : List Placeholder) :
    (processImages gen phs).2 =
      (List.enumFrom 0 phs).flatMap (itemBlock gen phs.length) ∧
    ∀ (i : Nat) (img : Placeholder),
      (itemBlock gen phs.length (i, img)).head? =
          some (Event.imageStart i phs.length) ∧
        ((itemBlock gen phs.length (i, img)).getLast? =
            some (Event.imageResolved i) ∨
         (itemBlock gen phs.length (i, img)).getLast? =
            some (Event.imageFailed i)) := by
  refine ⟨processImagesAux_trace gen phs.length phs 0, ?_⟩
  intro i img
  cases hg : gen img.xPrompt (resolvedWidth img) (resolvedHeight img)
      (img.transparentAttr == "true") with
  | ok url =>
      refine ⟨by simp [itemBlock, hg], Or.inl ?_⟩
      simp [itemBlock, hg]
  | error e =>
      refine ⟨by simp [itemBlock, hg], Or.inr ?_⟩
      simp [itemBlock, hg]

/-- C1: when the generation call for the placeholder at position i
fails, that placeholder ends `Failed` with the failure marker, the loop
still produces an outcome for every placeholder, every outcome is
terminal, and every placeholder's start event is still emitted — the
loop never aborts because one placeholder failed. -/
theorem failure_isolation (gen : GenOracle) (phs : List Placeholder)
    (i : Nat) (img : Placeholder) (msg : String)
    (hi : phs.get? i = some img)
    (hfail : gen img.xPrompt (resolvedWidth img) (resolvedHeight img)
      (img.transparentAttr == "true") = Except.error msg) :
    (processImages gen phs).1.get? i =
      some { state := ResolutionState.Failed, src := none
             alt := some "Image generation failed" } ∧
    (processImages gen phs).1.length = phs.length ∧
    (∀ j, j < phs.length → ∃ it, (processImages gen phs).1.get? j = some it ∧
      it.state ≠ ResolutionState.Pending) ∧
    (∀ j, j < phs.length →
      Event.imageStart j phs.length ∈ (processImages gen phs).2) := by
  have hitems : (processImages gen phs).1 = phs.map (itemFor gen) :=
    processImagesAux_items gen phs.length phs 0
  refine ⟨?_, ?_, ?_, ?_⟩
  · rw [hitems, List.get?_map, hi]
    simp [itemFor, hfail]
  · rw [hitems]; simp
  · intro j hj
    refine ⟨itemFor gen (phs.get ⟨j, hj⟩), ?_, ?_⟩
    · rw [hitems, List.get?_map, List.get?_eq_get hj]; rfl
    · rcases itemFor_state gen (phs.get ⟨j, hj⟩) with h | h <;>
        simp only [List.get_eq_getElem] at h <;> simp [h]
  · intro j hj
    have := processImagesAux_start_mem gen phs.length phs 0 j hj
    simpa using this

/-- The hypotheses of `failure_isolation` hold on a concrete
three-placeholder document whose second generation call fails, and the
second outcome is the marked failure. -/
theorem failure_isolation_witness :
    ([sampleOpaque, sampleTransparent, sampleOpaque].get? 1 =
      some sampleTransparent) ∧
    (sampleGen sampleTransparent.xPrompt (resolvedWidth sampleTransparent)
      (resolvedHeight sampleTransparent)
      (sampleTransparent.transparentAttr == "true") =
        Except.error "Failed to generate image") ∧
    (processImages sampleGen [sampleOpaque, sampleTransparent, sampleOpaque]).1.get? 1 =
      some { state := ResolutionState.Failed, src := none
             alt := some "Image generation failed" } :=
  ⟨rfl, rfl,
    (failure_isolation sampleGen [sampleOpaque, sampleTransparent, sampleOpaque]
      1 sampleTransparent "Failed to generate image" rfl rfl).1⟩

/-- C5: dimensions sent to the raster generator. For input 10×10 both
sent dimensions are at least 64; for input 70×81 both sent dimensions
are multiples of 16 within 8 of the input; in general each requested
dimension is the input clamped up to at least 64 and then rounded to
the nearest multiple of 16, hence a multiple of 16, at least 64, and
within 8 of the clamped input. -/
theorem dimension_resolution (seg : SegOracle)
    (api : ImageApiOracle TogetherRequest) (apiKey prompt : String) :
    (64 ≤ (generateImage seg api apiKey prompt 10 10 false).1.width ∧
     64 ≤ (generateImage seg api apiKey prompt 10 10 false).1.height) ∧
    ((generateImage seg api apiKey prompt 70 81 false).1.width % 16 = 0 ∧
     62 ≤ (generateImage seg api apiKey prompt 70 81 false).1.width ∧
     (generateImage seg api apiKey prompt 70 81 false).1.width ≤ 78 ∧
     (generateImage seg api apiKey prompt 70 81 false).1.height % 16 = 0 ∧
     73 ≤ (generateImage seg api apiKey prompt 70 81 false).1.height ∧
     (generateImage seg api apiKey prompt 70 81 false).1.height ≤ 89) ∧
    (∀ w h : Nat,
      (generateImage seg api apiKey prompt w h false).1.width =
          roundToMultiple16 (clampMin64 w) ∧
      (generateImage seg api apiKey prompt w h false).1.height =
          roundToMultiple16 (clampMin64 h) ∧
      (generateImage seg api apiKey prompt w h false).1.width % 16 = 0 ∧
      64 ≤ (generateImage seg api apiKey prompt w h false).1.width ∧
      (generateImage seg api apiKey prompt w h false).1.width ≤ clampMin64 w + 8 ∧
      clampMin64 w ≤ (generateImage seg api apiKey prompt w h false).1.width + 8 ∧
      (generateImage seg api apiKey prompt w h false).1.height % 16 = 0 ∧
      64 ≤ (generateImage seg api apiKey prompt w h false).1.height ∧
      (generateImage seg api apiKey prompt w h false).1.height ≤ clampMin64 h + 8 ∧
      clampMin64 h ≤ (generateImage seg api apiKey prompt w h false).1.height + 8) := by
  have hproj : ∀ w h : Nat, (generateImage seg api apiKey prompt w h false).1 =
      togetherRequest prompt (clampMin64 w) (clampMin64 h) := fun w h => rfl
  refine ⟨?_, ?_, ?_⟩
  · rw [hproj]
    exact ⟨by norm_num [togetherRequest, clampMin64, roundToMultiple16],
           by norm_num [togetherRequest, clampMin64, roundToMultiple16]⟩
  · rw [hproj]
    norm_num [togetherRequest, clampMin64, roundToMultiple16]
  · intro w h
    rw [hproj]
    obtain ⟨hw1, hw2, hw3, hw4⟩ :=
      roundToMultiple16_spec (clampMin64 w) (clampMin64_ge w)
    obtain ⟨hh1, hh2, hh3, hh4⟩ :=
      roundToMultiple16_spec (clampMin64 h) (clampMin64_ge h)
    exact ⟨rfl, rfl, hw1, hw2, hw3, hw4, hh1, hh2, hh3, hh4⟩

/-- C2: for a transparent placeholder whose raster generation succeeds
with payload b64 but whose background-removal step fails, the
placeholder ends `Resolved` and its result reference is a data URL
carrying exactly the pre-segmentation payload b64 — graceful
degradation, not failure. -/
theorem segmentation_failure_graceful (seg : SegOracle)
    (api : ImageApiOracle TogetherRequest) (apiKey : String)
    (img : Placeholder) (b64 msg : String)
    (hkey : apiKey.isEmpty = false)
    (htr : img.transparentAttr = "true")
    (hapi : api (togetherRequest img.xPrompt (clampMin64 (resolvedWidth img))
      (clampMin64 (resolvedHeight img))) = Except.ok b64)
    (hseg : seg (decode64 b64) (detectImageMimeFromBuffer (decode64 b64)) =
      Except.error msg) :
    (processImages (clientImageCall seg api apiKey) [img]).1 =
      [{ state := ResolutionState.Resolved
         src := some ("data:image/png;base64," ++ b64), alt := none }] := by
  simp [processImages, processImagesAux, clientImageCall, generateImage,
    removeBackgroundFun, hkey, htr, hapi, hseg]

/-- The hypotheses of `segmentation_failure_graceful` hold on a
concrete transparent placeholder with an always-failing segmentation
oracle, and its outcome is `Resolved` with the raster payload. -/
theorem segmentation_failure_graceful_witness :
    (("k" : String).isEmpty = false) ∧
    (sampleTransparent.transparentAttr = "true") ∧
    (sampleApi (togetherRequest sampleTransparent.xPrompt
      (clampMin64 (resolvedWidth sampleTransparent))
      (clampMin64 (resolvedHeight sampleTransparent))) = Except.ok "QUJD") ∧
    (sampleSeg (decode64 "QUJD")
      (detectImageMimeFromBuffer (decode64 "QUJD")) =
        Except.error "segmentation unavailable") ∧
    (processImages (clientImageCall sampleSeg sampleApi "k")
        [sampleTransparent]).1 =
      [{ state := ResolutionState.Resolved
         src := some ("data:image/png;base64," ++ "QUJD"), alt := none }] :=
  ⟨rfl, rfl, rfl, rfl,
    segmentation_failure_graceful sampleSeg sampleApi "k" sampleTransparent
      "QUJD" "segmentation unavailable" rfl rfl rfl rfl⟩

/-- C10: the request sent to the raster generator asks for PNG output,
yet every successful non-transparent result is labelled
`data:image/jpeg;base64,` (carrying the payload verbatim), while every
transparent result is labelled `data:image/png;base64,`. -/
theorem opaque_jpeg_label_transparent_png_label (seg : SegOracle)
    (api : ImageApiOracle TogetherRequest) (apiKey prompt : String)
    (width height : Nat) (b64 : String)
    (hkey : apiKey.isEmpty = false)
    (hapi : api (togetherRequest prompt (clampMin64 width)
      (clampMin64 height)) = Except.ok b64) :
    ((generateImage seg api apiKey prompt width height false).1.output_format =
        "png" ∧
     (generateImage seg api apiKey prompt width height true).1.output_format =
        "png") ∧
    (generateImage seg api apiKey prompt width height false).2 =
      Except.ok ("data:image/jpeg;base64," ++ b64) ∧
    (∃ payload, (generateImage seg api apiKey prompt width height true).2 =
      Except.ok ("data:image/png;base64," ++ payload)) := by
  refine ⟨⟨rfl, rfl⟩, ?_, ?_⟩
  · simp [generateImage, hkey, hapi]
  · cases hs : seg (decode64 b64) (detectImageMimeFromBuffer (decode64 b64)) with
    | ok out =>
        exact ⟨encode64 out,
          by simp [generateImage, removeBackgroundFun, hkey, hapi, hs]⟩
    | error e =>
        exact ⟨b64,
          by simp [generateImage, removeBackgroundFun, hkey, hapi, hs]⟩

/-- The hypotheses of `opaque_jpeg_label_transparent_png_label` hold at
concrete inputs, and the opaque result is the JPEG-labelled data URL. -/
theorem opaque_jpeg_label_witness :
    (("k" : String).isEmpty = false) ∧
    (sampleApi (togetherRequest "golden sun sticker" (clampMin64 120)
      (clampMin64 80)) = Except.ok "QUJD") ∧
    (generateImage sampleSeg sampleApi "k" "golden sun sticker" 120 80
      false).2 = Except.ok ("data:image/jpeg;base64," ++ "QUJD") :=
  ⟨rfl, rfl,
    (opaque_jpeg_label_transparent_png_label sampleSeg sampleApi "k"
      "golden sun sticker" 120 80 "QUJD" rfl rfl).2.1⟩

/-- C7: when the layout-producer call fails for a run with a non-empty
brief, the run surfaces exactly one user-facing error alert and makes no
raster-generation call — no placeholder is attempted and no event is
emitted. -/
theorem layout_failure_aborts_run (layoutApi : LayoutOracle) (gen : GenOracle)
    (userInputValue msg : String)
    (hne : userInputValue.trim.isEmpty = false)
    (hfail : layoutApi userInputValue.trim = Except.error msg) :
    runGeneration layoutApi gen userInputValue =
      { alerts := ["An error occurred while generating the flyer. Please try again."]
        layoutCalls := 1, imageCalls := 0, items := [], events := [] } := by
  simp [runGeneration, hne, hfail]

/-- The hypotheses of `layout_failure_aborts_run` hold for a concrete
brief and an always-failing layout oracle, and the run ends with the
single outer-catch alert and zero image calls. -/
theorem layout_failure_aborts_run_witness :
    (("spring gala flyer" : String).trim.isEmpty = false) ∧
    (sampleLayoutFail ("spring gala flyer" : String).trim =
      Except.error "Failed to generate layout") ∧
    runGeneration sampleLayoutFail sampleGen "spring gala flyer" =
      { alerts := ["An error occurred while generating the flyer. Please try again."]
        layoutCalls := 1, imageCalls := 0, items := [], events := [] } :=
  ⟨by
      simp only [String.trim, Substring.trim, String.toSubstring,
        Substring.toString]
      rw [Substring.takeRightWhileAux.eq_def, Substring.takeWhileAux.eq_def]
      decide,
   rfl,
    layout_failure_aborts_run sampleLayoutFail sampleGen "spring gala flyer"
      "Failed to generate layout"
      (by
        simp only [String.trim, Substring.trim, String.toSubstring,
          Substring.toString]
        rw [Substring.takeRightWhileAux.eq_def, Substring.takeWhileAux.eq_def]
        decide)
      rfl⟩

/-- C8: a submission whose brief trims to the empty string is rejected
with the validation alert before any external call: zero layout calls
and zero image-generation calls (and hence no background-removal call,
which only ever happens inside an image-generation call). -/
theorem empty_brief_validation (layoutApi : LayoutOracle) (gen : GenOracle)
    (userInputValue : String)
    (hempty : userInputValue.trim.isEmpty = true) :
    runGeneration layoutApi gen userInputValue =
      { alerts := ["Please enter your requirements first."]
        layoutCalls := 0, imageCalls := 0, items := [], events := [] } := by
  simp [runGeneration, hempty]

/-- The hypothesis of `empty_brief_validation` holds for the empty
brief, and the run makes no external call. -/
theorem empty_brief_validation_witness :
    (("" : String).trim.isEmpty = true) ∧
    runGeneration sampleLayoutFail sampleGen "" =
      { alerts := ["Please enter your requirements first."]
        layoutCalls := 0, imageCalls := 0, items := [], events := [] } :=
  ⟨by
      simp only [String.trim, Substring.trim, String.toSubstring,
        Substring.toString]
      rw [Substring.takeWhileAux.eq_def, Substring.takeRightWhileAux.eq_def]
      decide,
    empty_brief_validation sampleLayoutFail sampleGen ""
      (by
        simp only [String.trim, Substring.trim, String.toSubstring,
          Substring.toString]
        rw [Substring.takeWhileAux.eq_def, Substring.takeRightWhileAux.eq_def]
        decide)⟩

/-- C4 is violated by the code: the prompt the layout handler sends to
the language model is the same for every submitted brief, because the
handler reassigns `requirements` to a hardcoded literal (src/server.js
line 219) and the destructuring of the request body is commented out
(line 162); two distinct briefs produce identical layout-producer
inputs. -/
theorem layout_prompt_ignores_brief :
    generateLayoutFullPrompt "A birthday flyer for a jazz club" =
      generateLayoutFullPrompt "A minimalist tech conference poster" ∧
    ("A birthday flyer for a jazz club" : String) ≠
      "A minimalist tech conference poster" :=
  ⟨rfl, by decide⟩

/-- Sample PNG bytes (the 8-byte PNG signature) standing for a fetched
remote image. -/
def samplePngBytes : List Nat := [0x89, 0x50, 0x4E, 0x47, 0x0D, 0x0A, 0x1A, 0x0A]

/-- A fetch oracle that returns `samplePngBytes` with an `image/png`
content type for every URL. -/
def sampleFetch : FetchOracle := fun _ =>
  Except.ok (samplePngBytes, some "image/png")

/-- C6 is violated by the code for http(s) inputs: even though the
handler fetches the remote image and base64-encodes its bytes, the later
reassignment of `base64Data` (src/server.js lines 286–291) replaces that
encoding with the raw `imageUrl` string, so the bytes handed to the
segmentation routine are the base64 decoding of the URL text — not the
fetched image bytes. -/
theorem remove_bg_clobbers_fetched_bytes :
    (sampleFetch "https://img.example.com/photo.png" =
      Except.ok (samplePngBytes, some "image/png")) ∧
    removeBgInput sampleFetch "https://img.example.com/photo.png" =
      Except.ok (decode64 "https://img.example.com/photo.png", "image/png") ∧
    decode64 "https://img.example.com/photo.png" ≠ samplePngBytes := by
  refine ⟨rfl, ?_, by decide⟩
  rfl

end AiDesigner
